import Mathlib

/-!
Verification of the Budget-Tracker-Pro core model (`src/models/budget_tracker.py`)
against its natural-language specification.

Modelling conventions (shallow embedding of the Python source):
* Monetary amounts and exchange rates are rationals (`ℚ`); Python floats carry
  exact decimal literals in every scenario the claims touch.
* `datetime` values are a six-field `DateTime` structure.  Python compares
  datetimes lexicographically by (year, month, day, hour, minute, second);
  we compare via an injective, order-preserving numeric `key` (the fields of a
  real datetime are bounded: month ≤ 12 < 13, day ≤ 31 < 32, hour < 24,
  minute < 60, second < 60, so the mixed-radix key order coincides with the
  lexicographic order).  Microseconds are dropped: no claim distinguishes them.
* Strings stay strings: `category`, `type`, `currency` are free-form in the
  source (imports can store arbitrary values), so they are NOT narrowed to
  enumerations.
* Python methods that mutate `self` become functions `BudgetTracker → ... →
  Bool × BudgetTracker` returning the Python return value and the new state.
* File contents are modelled structurally: a CSV file is a list of rows whose
  cells may be absent (`none`), a JSON file is either a bare array, an object
  with / without a `transactions` key, or some other document.  A cell that is
  present but on which Python's `float()` would raise is `some none`.
* A Python exception escaping a method with no try/except (the
  `ZeroDivisionError` in the category-budget loop of `get_budget_status`) is
  modelled by an `Option` result, `none` = the call raises.
-/

/-- A naive `datetime.datetime` (microseconds dropped; see header comment). -/
structure DateTime where
  year : Nat
  month : Nat
  day : Nat
  hour : Nat
  minute : Nat
  second : Nat
deriving DecidableEq, Repr

/-- Mixed-radix encoding of a `DateTime`; on calendar-valid field values its
order is exactly Python's lexicographic `datetime` comparison. -/
def DateTime.key (dt : DateTime) : Nat :=
  ((((dt.year * 13 + dt.month) * 32 + dt.day) * 24 + dt.hour) * 60 + dt.minute) * 60
    + dt.second

/-- One ledger record, as built by `add_transaction` / the loaders.
`type` and the other fields keep the Python dict's key names. -/
structure Transaction where
  amount : ℚ
  category : String
  type : String
  currency : String
  date : DateTime
  id : Nat
deriving DecidableEq, Repr

/-- In-memory state of a `BudgetTracker` instance.  `budget_limits` is a
`dict` in the source; Python dicts iterate in insertion order, so it is an
association list here. -/
structure BudgetTracker where
  transactions : List Transaction
  income_categories : List String
  expense_categories : List String
  budget_limits : List (String × ℚ)
  monthly_budget_limit : Option ℚ
  weekly_budget_limit : Option ℚ
deriving DecidableEq, Repr

/-- The static `exchange_rates` table from `__init__` (units per 1 USD). -/
def exchange_rates : List (String × ℚ) :=
  [("USD", 1), ("EUR", 91/100), ("GBP", 79/100), ("JPY", 299/2),
   ("CAD", 34/25), ("AUD", 38/25), ("CHF", 87/100), ("CNY", 181/25),
   ("INR", 2078/25), ("BRL", 503/100), ("PKR", 278)]

/-- `__init__` with no sidecar files present (`categories.json` /
`budget_settings.json` absent, so the defaults survive). -/
def initState : BudgetTracker :=
  { transactions := []
    income_categories :=
      ["Salary", "Freelance", "Business", "Investment", "Gift", "Other Income"]
    expense_categories :=
      ["Food", "Transportation", "Entertainment", "Bills", "Shopping",
       "Healthcare", "Education", "Other Expense"]
    budget_limits := []
    monthly_budget_limit := none
    weekly_budget_limit := none }

/-- `convert_to_usd`: `abs(amount) / exchange_rates[currency]` for a known
code, `amount` unchanged (no `abs`!) for an unknown one. -/
def convert_to_usd (amount : ℚ) (currency : String) : ℚ :=
  match exchange_rates.lookup currency with
  | none => amount
  | some rate => |amount| / rate

/-- Python's `str.strip()` with no argument: drop leading and trailing
whitespace characters.  (Defined over the character list so that it reduces
in the kernel; `String.trim` agrees on the claims' inputs but is opaque to
`decide`.) -/
def pyStrip (s : String) : String :=
  ⟨((s.data.dropWhile Char.isWhitespace).reverse.dropWhile
      Char.isWhitespace).reverse⟩

/-- `add_transaction`.  `transaction_date = none` models Python's `None`
default, replaced by `now` (the `datetime.now().isoformat()` call).
`not category or not category.strip()` collapses to `pyStrip category = ""`
(an empty string is its own strip). -/
def add_transaction (s : BudgetTracker) (amount : ℚ) (category : String)
    (transaction_type : String) (currency : String)
    (transaction_date : Option DateTime) (now : DateTime) :
    Bool × BudgetTracker :=
  if amount ≤ 0 then (false, s)
  else if pyStrip category = "" then (false, s)
  else if transaction_type ≠ "Income" ∧ transaction_type ≠ "Expense" then (false, s)
  else
    let d := transaction_date.getD now
    let t : Transaction :=
      { amount := amount, category := pyStrip category, type := transaction_type
        currency := currency, date := d, id := s.transactions.length + 1 }
    (true, { s with transactions := s.transactions ++ [t] })

/-- `get_transaction_count`. -/
def get_transaction_count (s : BudgetTracker) : Nat :=
  s.transactions.length

/-- The scan of `remove_transaction`: drop the first record whose `id`
matches, `none` when no record matches. -/
def removeFirstById : List Transaction → Nat → Option (List Transaction)
  | [], _ => none
  | t :: ts, i =>
      if t.id = i then some ts
      else (removeFirstById ts i).map (t :: ·)

/-- `remove_transaction`. -/
def remove_transaction (s : BudgetTracker) (transaction_id : Nat) :
    Bool × BudgetTracker :=
  match removeFirstById s.transactions transaction_id with
  | none => (false, s)
  | some ts => (true, { s with transactions := ts })

/-- `clear_all_transactions`. -/
def clear_all_transactions (s : BudgetTracker) : BudgetTracker :=
  { s with transactions := [] }

/-- `get_summary`: one pass over the ledger accumulating USD-converted income
and expense totals, then `net = income - expenses`. -/
structure Summary where
  total_income : ℚ
  total_expenses : ℚ
  net_balance : ℚ
deriving DecidableEq, Repr

def summaryStep (acc : ℚ × ℚ) (t : Transaction) : ℚ × ℚ :=
  let amount_usd := convert_to_usd t.amount t.currency
  if t.type = "Income" then (acc.1 + amount_usd, acc.2)
  else if t.type = "Expense" then (acc.1, acc.2 + amount_usd)
  else acc

def get_summary (s : BudgetTracker) : Summary :=
  let p := s.transactions.foldl summaryStep (0, 0)
  { total_income := p.1, total_expenses := p.2, net_balance := p.1 - p.2 }

/-! ### Category registry (Phase 4 Feature 2) -/

/-- `get_categories(transaction_type)`: the `else` branch (any argument other
than the two literal kind strings, including Python's `None` default, here
`none`) concatenates both sets. -/
def get_categories (s : BudgetTracker) (transaction_type : Option String) :
    List String :=
  if transaction_type = some "Income" then s.income_categories
  else if transaction_type = some "Expense" then s.expense_categories
  else s.income_categories ++ s.expense_categories

/-- `is_category_in_use`: exact (case-sensitive) string match against every
transaction's `category`. -/
def is_category_in_use (s : BudgetTracker) (category_name : String) : Bool :=
  s.transactions.any (fun t => t.category = category_name)

/-- `remove_category`.  Python's `list.remove` deletes the first occurrence,
as does `List.erase`.  The `save_categories()` file write is outside the
in-memory state. -/
def remove_category (s : BudgetTracker) (category_name : String)
    (transaction_type : String) : Bool × BudgetTracker :=
  if is_category_in_use s category_name then (false, s)
  else if transaction_type = "Income" ∧ category_name ∈ s.income_categories then
    (true, { s with income_categories := s.income_categories.erase category_name })
  else if transaction_type = "Expense" ∧ category_name ∈ s.expense_categories then
    (true, { s with expense_categories := s.expense_categories.erase category_name })
  else (false, s)

/-! ### Calendar helpers for `get_budget_status`

`get_budget_status` derives the month window by
`now.replace(day=1, hour=0, minute=0, second=0, microsecond=0)` and the week
window by `now - timedelta(days=now.weekday())` with the time zeroed.  The
weekday and the day subtraction are reproduced with proleptic-Gregorian
arithmetic (rata die day numbers; day 1 = Monday, 0001-01-01). -/

def isLeap (y : Nat) : Bool :=
  y % 4 = 0 && (y % 100 ≠ 0 || y % 400 = 0)

def daysInMonth (y m : Nat) : Nat :=
  if m = 2 then (if isLeap y then 29 else 28)
  else if m = 4 ∨ m = 6 ∨ m = 9 ∨ m = 11 then 30
  else 31

def daysBeforeMonth (y m : Nat) : Nat :=
  (List.range (m - 1)).foldl (fun acc i => acc + daysInMonth y (i + 1)) 0

/-- Day number of a proleptic-Gregorian date (0001-01-01 = day 1). -/
def rataDie (y m d : Nat) : Nat :=
  365 * (y - 1) + (y - 1) / 4 - (y - 1) / 100 + (y - 1) / 400
    + daysBeforeMonth y m + d

/-- `datetime.weekday()`: Monday = 0 … Sunday = 6. -/
def weekdayIdx (dt : DateTime) : Nat :=
  (rataDie dt.year dt.month dt.day + 6) % 7

def prevDate : Nat × Nat × Nat → Nat × Nat × Nat
  | (y, m, d) =>
      if d > 1 then (y, m, d - 1)
      else if m > 1 then (y, m - 1, daysInMonth y (m - 1))
      else (y - 1, 12, 31)

def subDays : Nat → Nat × Nat × Nat → Nat × Nat × Nat
  | 0, p => p
  | n + 1, p => subDays n (prevDate p)

/-- `now.replace(day=1, hour=0, minute=0, second=0, microsecond=0)`. -/
def monthStart (now : DateTime) : DateTime :=
  { year := now.year, month := now.month, day := 1
    hour := 0, minute := 0, second := 0 }

/-- `(now - timedelta(days=now.weekday())).replace(hour=0, ...)`. -/
def weekStart (now : DateTime) : DateTime :=
  match subDays (weekdayIdx now) (now.year, now.month, now.day) with
  | (y, m, d) => { year := y, month := m, day := d
                   hour := 0, minute := 0, second := 0 }

/-! ### Budget alert engine (Phase 4 Feature 3) -/

/-- `_get_expenses_in_period`: USD total of Expense-kind records whose parsed
date `d` satisfies `start_date <= d <= end_date`. -/
def get_expenses_in_period (s : BudgetTracker)
    (start_date end_date : DateTime) : ℚ :=
  s.transactions.foldl
    (fun total t =>
      if t.type = "Expense" ∧ start_date.key ≤ t.date.key ∧
          t.date.key ≤ end_date.key then
        total + convert_to_usd t.amount t.currency
      else total) 0

/-- `_get_category_expenses_current_month`, viewed through the only access the
engine makes to the returned dict: `category_totals.get(category, 0)`.
The source loop admits every Expense record with
`transaction_date >= current_month_start` — it imposes NO upper bound. -/
def get_category_expenses_current_month (s : BudgetTracker) (now : DateTime)
    (category : String) : ℚ :=
  s.transactions.foldl
    (fun total t =>
      if t.type = "Expense" ∧ (monthStart now).key ≤ t.date.key ∧
          t.category = category then
        total + convert_to_usd t.amount t.currency
      else total) 0

/-- An alert, minus its `message` f-string (pure presentation text; the
claims concern alert kind, count and severity). -/
structure Alert where
  type : String
  severity : String
deriving DecidableEq, Repr

/-- The shared shape of the monthly / weekly blocks of `get_budget_status`:
`if self.<scope>_budget_limit:` (Python truthiness: `None` and `0` are
falsy), then `spent >= limit` → critical, `elif` percentage ≥ 80 → warning. -/
def scope_alerts (label : String) (limit : Option ℚ) (spent : ℚ) :
    List Alert :=
  match limit with
  | none => []
  | some l =>
      if l = 0 then []
      else if spent ≥ l then [{ type := label ++ "_exceeded", severity := "critical" }]
      else if (spent / l) * 100 ≥ 80 then
        [{ type := label ++ "_warning", severity := "warning" }]
      else []

/-- The `for category, limit in self.budget_limits.items():` loop.  When
`spent > 0` the source computes `(spent / limit) * 100` BEFORE any
comparison, so `limit = 0` raises `ZeroDivisionError` (modelled as `none`);
when `spent = 0` nothing is computed or emitted for that category. -/
def category_alerts (spent : String → ℚ) :
    List (String × ℚ) → Option (List Alert)
  | [] => some []
  | (c, l) :: rest =>
      if spent c > 0 then
        if l = 0 then none
        else
          let this :=
            if spent c ≥ l then
              [({ type := "category_exceeded", severity := "critical" } : Alert)]
            else if (spent c / l) * 100 ≥ 80 then
              [({ type := "category_warning", severity := "warning" } : Alert)]
            else []
          (category_alerts spent rest).map (this ++ ·)
      else category_alerts spent rest

structure BudgetStatus where
  monthly_spent : ℚ
  monthly_limit : Option ℚ
  weekly_spent : ℚ
  weekly_limit : Option ℚ
  category_limits : List (String × ℚ)
  alerts : List Alert
deriving DecidableEq, Repr

/-- `get_budget_status` at instant `now` (the source reads `datetime.now()`).
`none` models the uncaught `ZeroDivisionError` from the category loop. -/
def get_budget_status (s : BudgetTracker) (now : DateTime) :
    Option BudgetStatus :=
  let monthly_expenses := get_expenses_in_period s (monthStart now) now
  let weekly_expenses := get_expenses_in_period s (weekStart now) now
  let category_expenses := get_category_expenses_current_month s now
  (category_alerts category_expenses s.budget_limits).map fun cat_alerts =>
    { monthly_spent := monthly_expenses
      monthly_limit := s.monthly_budget_limit
      weekly_spent := weekly_expenses
      weekly_limit := s.weekly_budget_limit
      category_limits := s.budget_limits
      alerts := scope_alerts "monthly" s.monthly_budget_limit monthly_expenses
          ++ scope_alerts "weekly" s.weekly_budget_limit weekly_expenses
          ++ cat_alerts }

/-! ### Persistence adapter

A CSV file / a JSON transaction array is a list of `FileRow`s.  An outer
`none` field is a cell absent from the row; `amount = some none` is a cell
that is present but on which Python's `float()` raises (aborting the whole
load via the surrounding `try/except`).  Dates travel verbatim: exports write
the stored value and imports store the cell without parsing it, and Python's
`str`/`fromisoformat` round-trip is exact, so the cell is typed `DateTime`. -/

structure FileRow where
  date : Option DateTime
  amount : Option (Option ℚ)
  currency : Option String
  category : Option String
  type : Option String
  usd_value : Option ℚ
deriving DecidableEq, Repr

/-- Round half to even at two decimals, Python's `round(x, 2)`. -/
def round2 (q : ℚ) : ℚ :=
  let x := q * 100
  let f : ℤ := ⌊x⌋
  let r := x - f
  let n : ℤ :=
    if r < 1/2 then f
    else if r > 1/2 then f + 1
    else if f % 2 = 0 then f else f + 1
  (n : ℚ) / 100

/-- `save_to_csv`, successful write path: the produced file, one full row per
transaction, `usd_value` recomputed at export time. -/
def save_to_csv (s : BudgetTracker) : List FileRow :=
  s.transactions.map fun t =>
    { date := some t.date
      amount := some (some t.amount)
      currency := some t.currency
      category := some t.category
      type := some t.type
      usd_value := some (round2 (convert_to_usd t.amount t.currency)) }

/-- The row loop shared by `load_from_csv` and `load_from_json`: a row
missing any of `date, amount, category, type` is skipped; then
`float(row['amount'])` runs (`none` aborts the whole load); `currency`
defaults to `"USD"`; ids are assigned from the running length, so file order
gives ids 1..n. -/
def loadRows : List FileRow → List Transaction → Option (List Transaction)
  | [], acc => some acc
  | row :: rest, acc =>
      match row.date, row.amount, row.category, row.type with
      | some d, some am, some c, some ty =>
          match am with
          | none => none
          | some a =>
              loadRows rest
                (acc ++ [{ amount := a, category := c, type := ty
                           currency := row.currency.getD "USD"
                           date := d, id := acc.length + 1 }])
      | _, _, _, _ => loadRows rest acc

/-- `load_from_csv`.  The input is `none` when the file is absent or
unreadable (both return `False` leaving the state untouched); otherwise the
parsed rows.  On success the loaded list REPLACES `self.transactions`. -/
def load_from_csv (s : BudgetTracker) (input : Option (List FileRow)) :
    Bool × BudgetTracker :=
  match input with
  | none => (false, s)
  | some rows =>
      match loadRows rows [] with
      | none => (false, s)
      | some ts => (true, { s with transactions := ts })

/-- Shape of a parsed JSON document for `load_from_json`. -/
inductive JsonData where
  | list (rows : List FileRow)
  | dict (transactions : Option (List FileRow))
  | other
deriving DecidableEq, Repr

/-- `load_from_json`: accepts a bare array or a dict with a `transactions`
key; any other shape (or a missing/unparseable file, `input = none`) returns
`False` without touching the state. -/
def load_from_json (s : BudgetTracker) (input : Option JsonData) :
    Bool × BudgetTracker :=
  match input with
  | none => (false, s)
  | some (.list rows) =>
      match loadRows rows [] with
      | none => (false, s)
      | some ts => (true, { s with transactions := ts })
  | some (.dict none) => (false, s)
  | some (.dict (some rows)) =>
      match loadRows rows [] with
      | none => (false, s)
      | some ts => (true, { s with transactions := ts })
  | some .other => (false, s)

/-! ### Ledger operations and reachability (for the stored-record invariant) -/

inductive Op where
  | add (amount : ℚ) (category : String) (transaction_type : String)
      (currency : String) (transaction_date : Option DateTime) (now : DateTime)
  | removeById (id : Nat)
  | clear
  | loadCsv (input : Option (List FileRow))
  | loadJson (input : Option JsonData)

def applyOp (s : BudgetTracker) : Op → BudgetTracker
  | .add a c ty cur d now => (add_transaction s a c ty cur d now).2
  | .removeById i => (remove_transaction s i).2
  | .clear => clear_all_transactions s
  | .loadCsv input => (load_from_csv s input).2
  | .loadJson input => (load_from_json s input).2

/-- States reachable from a fresh tracker by the ledger-mutating operations. -/
inductive Reachable : BudgetTracker → Prop where
  | init : Reachable initState
  | step (s : BudgetTracker) (op : Op) : Reachable s → Reachable (applyOp s op)

/-- The stored-transaction invariant claimed by the spec. -/
def TxInvariant (t : Transaction) : Prop :=
  0 < t.amount ∧ (t.type = "Income" ∨ t.type = "Expense") ∧ t.category ≠ ""

instance : DecidablePred TxInvariant := fun t => by
  unfold TxInvariant; infer_instance

/-- An operation that is not a CSV/JSON import. -/
def Op.nonLoad : Op → Prop
  | .loadCsv _ => False
  | .loadJson _ => False
  | _ => True

/-! ### Spec-side definitions (for refinement comparison)

The spec describes the budget month window as
"first instant of now's calendar month ≤ date ≤ now" for BOTH the monthly
total and the per-category totals; these definitions transcribe those words
so they can be compared with the functions read off the source. -/

/-- Modelled from the spec: Expense-kind transactions whose date lies in the
closed window [monthStart now, now], converted to base currency and summed. -/
def spec_month_window_expenses (s : BudgetTracker) (now : DateTime) : ℚ :=
  ((s.transactions.filter fun t =>
      t.type = "Expense" ∧ (monthStart now).key ≤ t.date.key ∧
        t.date.key ≤ now.key).map
    fun t => convert_to_usd t.amount t.currency).sum

/-- Modelled from the spec: the same closed window [monthStart now, now],
restricted to one category, converted and summed. -/
def spec_category_window_expenses (s : BudgetTracker) (now : DateTime)
    (category : String) : ℚ :=
  ((s.transactions.filter fun t =>
      t.type = "Expense" ∧ (monthStart now).key ≤ t.date.key ∧
        t.date.key ≤ now.key ∧ t.category = category).map
    fun t => convert_to_usd t.amount t.currency).sum

/-! ### Helper functions and concrete scenario states -/

/-- The (date, amount, currency, category, type) tuple of the CSV round-trip
property. -/
def tupleOf (t : Transaction) : DateTime × ℚ × String × String × String :=
  (t.date, t.amount, t.currency, t.category, t.type)

/-- Renumber a transaction list with ids `k+1, k+2, …` (what a load produces
from exported rows when the accumulator already holds `k` records). -/
def renumberFrom (k : Nat) : List Transaction → List Transaction
  | [] => []
  | t :: ts => { t with id := k + 1 } :: renumberFrom (k + 1) ts

/-- A reference instant used by the concrete scenarios: Saturday,
2024-06-15 12:00:00. -/
def nowRef : DateTime := ⟨2024, 6, 15, 12, 0, 0⟩

/-- Tracker with a single current-month expense of `x` and a monthly limit of
1000 (threshold scenario of the spec). -/
def trackerMonthly (x : ℚ) : BudgetTracker :=
  { initState with
      transactions := [⟨x, "Food", "Expense", "USD", ⟨2024, 6, 10, 10, 0, 0⟩, 1⟩]
      monthly_budget_limit := some 1000 }

/-- Tracker with a category limit of exactly 0 and a positive current-month
spend in that category. -/
def trackerZeroLimitSpend : BudgetTracker :=
  { initState with
      transactions := [⟨5, "Food", "Expense", "USD", ⟨2024, 6, 10, 10, 0, 0⟩, 1⟩]
      budget_limits := [("Food", 0)] }

/-- Tracker with a category limit of exactly 0 and zero spend. -/
def trackerZeroLimitNoSpend : BudgetTracker :=
  { initState with budget_limits := [("Food", 0)] }

/-- Tracker whose only expense is dated 2025-06-10 — a LATER calendar year
with the same month number as `nowRef`, hence after `nowRef`. -/
def trackerFutureYear : BudgetTracker :=
  { initState with
      transactions := [⟨50, "Food", "Expense", "USD", ⟨2025, 6, 10, 0, 0, 0⟩, 1⟩] }

/-- Tracker whose only expense is dated 2023-06-20 — an EARLIER calendar year
with the same month number as `nowRef`. -/
def trackerPastYear : BudgetTracker :=
  { initState with
      transactions := [⟨50, "Food", "Expense", "USD", ⟨2023, 6, 20, 0, 0, 0⟩, 1⟩] }

/-- The ledger of the summary scenario: Income 5000 "Salary" USD and Expense
1200 "Rent" USD added on the same day. -/
def trackerSummary : BudgetTracker :=
  (add_transaction
    (add_transaction initState 5000 "Salary" "Income" "USD"
        (some ⟨2024, 6, 10, 10, 0, 0⟩) ⟨2024, 6, 10, 10, 0, 0⟩).2
    1200 "Rent" "Expense" "USD"
    (some ⟨2024, 6, 10, 10, 0, 0⟩) ⟨2024, 6, 10, 10, 0, 0⟩).2

/-- A CSV row that passes the field-presence check yet violates every clause
of the stored-record invariant (amount `-5`, empty category, kind
`"Banana"`). -/
def rowInvalidValues : FileRow :=
  { date := some ⟨2024, 1, 1, 0, 0, 0⟩, amount := some (some (-5))
    currency := some "USD", category := some "", type := some "Banana"
    usd_value := none }

/-- The invalid record `rowInvalidValues` turns into once loaded. -/
def txInvalid : Transaction :=
  { amount := -5, category := "", type := "Banana", currency := "USD"
    date := ⟨2024, 1, 1, 0, 0, 0⟩, id := 1 }

/-- A CSV row whose `amount` cell is present but not parseable by `float()`. -/
def rowBadAmount : FileRow :=
  { date := some ⟨2024, 1, 1, 0, 0, 0⟩, amount := some none
    currency := some "USD", category := some "Food", type := some "Expense"
    usd_value := none }

/-! ## Supporting lemmas -/

theorem foldl_expenses_eq (start stop : DateTime) (l : List Transaction) :
    ∀ a : ℚ,
      l.foldl (fun total t =>
        if t.type = "Expense" ∧ start.key ≤ t.date.key ∧ t.date.key ≤ stop.key
        then total + convert_to_usd t.amount t.currency else total) a
      = a + ((l.filter fun t =>
            t.type = "Expense" ∧ start.key ≤ t.date.key ∧ t.date.key ≤ stop.key).map
          fun t => convert_to_usd t.amount t.currency).sum := by
  induction l with
  | nil => intro a; simp
  | cons t ts ih =>
      intro a
      by_cases h : t.type = "Expense" ∧ start.key ≤ t.date.key ∧ t.date.key ≤ stop.key
      · simp [List.filter_cons, h, ih]; ring
      · simp [List.filter_cons, h, ih]

theorem foldl_category_eq (ms : DateTime) (category : String)
    (l : List Transaction) :
    ∀ a : ℚ,
      l.foldl (fun total t =>
        if t.type = "Expense" ∧ ms.key ≤ t.date.key ∧ t.category = category
        then total + convert_to_usd t.amount t.currency else total) a
      = a + ((l.filter fun t =>
            t.type = "Expense" ∧ ms.key ≤ t.date.key ∧ t.category = category).map
          fun t => convert_to_usd t.amount t.currency).sum := by
  induction l with
  | nil => intro a; simp
  | cons t ts ih =>
      intro a
      by_cases h : t.type = "Expense" ∧ ms.key ≤ t.date.key ∧ t.category = category
      · simp [List.filter_cons, h, ih]; ring
      · simp [List.filter_cons, h, ih]

theorem foldl_summary_eq (l : List Transaction) :
    ∀ p : ℚ × ℚ,
      l.foldl summaryStep p
      = (p.1 + ((l.filter fun t => t.type = "Income").map
            fun t => convert_to_usd t.amount t.currency).sum,
         p.2 + ((l.filter fun t => t.type = "Expense").map
            fun t => convert_to_usd t.amount t.currency).sum) := by
  induction l with
  | nil => intro p; simp
  | cons t ts ih =>
      intro p
      by_cases hI : t.type = "Income"
      · simp [summaryStep, List.filter_cons, hI, ih, Prod.ext_iff]
        ring
      · by_cases hE : t.type = "Expense"
        · simp [summaryStep, List.filter_cons, hI, hE, ih, Prod.ext_iff]
          ring
        · simp [summaryStep, List.filter_cons, hI, hE, ih]

/-! ## Claims -/

/-- C1: `add_transaction` returns `false` and leaves the tracker completely
unchanged whenever `amount ≤ 0`, the category trims to empty, or the kind is
not Income/Expense; on every valid addition it returns `true`, the count
grows by exactly 1, and the new record is appended at the end with
`id = pre-add count + 1`. -/
theorem c1_add_transaction_correct (s : BudgetTracker) (amount : ℚ)
    (category transaction_type currency : String)
    (transaction_date : Option DateTime) (now : DateTime) :
    ((amount ≤ 0 ∨ pyStrip category = "" ∨
        (transaction_type ≠ "Income" ∧ transaction_type ≠ "Expense")) →
      add_transaction s amount category transaction_type currency
        transaction_date now = (false, s)) ∧
    (0 < amount → pyStrip category ≠ "" →
      (transaction_type = "Income" ∨ transaction_type = "Expense") →
      (add_transaction s amount category transaction_type currency
          transaction_date now).1 = true ∧
      get_transaction_count (add_transaction s amount category transaction_type
          currency transaction_date now).2 = get_transaction_count s + 1 ∧
      ∃ t : Transaction,
        (add_transaction s amount category transaction_type currency
            transaction_date now).2.transactions = s.transactions ++ [t] ∧
        t.id = get_transaction_count s + 1) := by
  constructor
  · rintro (h | h | h)
    · simp [add_transaction, h]
    · by_cases ha : amount ≤ 0 <;> simp [add_transaction, ha, h]
    · by_cases ha : amount ≤ 0
      · simp [add_transaction, ha]
      · by_cases hc : pyStrip category = "" <;> simp [add_transaction, ha, hc, h]
  · intro h1 h2 h3
    have ha : ¬amount ≤ 0 := not_le.mpr h1
    have hty : ¬(transaction_type ≠ "Income" ∧ transaction_type ≠ "Expense") := by
      rcases h3 with h | h <;> simp [h]
    refine ⟨by simp [add_transaction, ha, h2, hty], ?_, ?_⟩
    · simp [add_transaction, ha, h2, hty, get_transaction_count]
    · have ht : (add_transaction s amount category transaction_type currency
          transaction_date now).2.transactions
          = s.transactions ++ [⟨amount, pyStrip category, transaction_type,
              currency, transaction_date.getD now,
              s.transactions.length + 1⟩] := by
        simp [add_transaction, ha, h2, hty]
      exact ⟨_, ht, rfl⟩

/-- Witness for C1 at a concrete tracker and inputs: an invalid addition
(amount `-3`) is rejected without mutation, and a valid addition of 5
"Food"/Expense succeeds, growing the count from 0 to 1. -/
theorem c1_add_transaction_correct_witness :
    (add_transaction initState (-3) "Food" "Expense" "USD" none
      ⟨2024, 1, 1, 0, 0, 0⟩ = (false, initState)) ∧
    ((add_transaction initState 5 "Food" "Expense" "USD" none
        ⟨2024, 1, 1, 0, 0, 0⟩).1 = true ∧
      get_transaction_count (add_transaction initState 5 "Food" "Expense" "USD"
          none ⟨2024, 1, 1, 0, 0, 0⟩).2 = get_transaction_count initState + 1 ∧
      ∃ t : Transaction,
        (add_transaction initState 5 "Food" "Expense" "USD" none
            ⟨2024, 1, 1, 0, 0, 0⟩).2.transactions = initState.transactions ++ [t] ∧
        t.id = get_transaction_count initState + 1) :=
  ⟨(c1_add_transaction_correct initState (-3) "Food" "Expense" "USD" none
      ⟨2024, 1, 1, 0, 0, 0⟩).1 (Or.inl (by norm_num)),
   (c1_add_transaction_correct initState 5 "Food" "Expense" "USD" none
      ⟨2024, 1, 1, 0, 0, 0⟩).2 (by norm_num) (by decide) (Or.inr rfl)⟩

theorem removeFirstById_subset :
    ∀ (l : List Transaction) (i : Nat) (l2 : List Transaction),
      removeFirstById l i = some l2 → ∀ t ∈ l2, t ∈ l := by
  intro l
  induction l with
  | nil => intro i l2 h; simp [removeFirstById] at h
  | cons x xs ih =>
      intro i l2 h t ht
      by_cases hx : x.id = i
      · simp [removeFirstById, hx] at h
        subst h; exact List.mem_cons_of_mem x ht
      · simp only [removeFirstById, if_neg hx, Option.map_eq_some'] at h
        obtain ⟨l3, h3, rfl⟩ := h
        rcases ht with _ | ht
        · exact List.mem_cons_self x xs
        · exact List.mem_cons_of_mem x (ih i l3 h3 t (by assumption))

theorem applyOp_preserves_invariant (s : BudgetTracker) (op : Op)
    (hs : ∀ t ∈ s.transactions, TxInvariant t) (hop : op.nonLoad) :
    ∀ t ∈ (applyOp s op).transactions, TxInvariant t := by
  cases op with
  | add a c ty cur d now =>
      intro t ht
      by_cases h1 : a ≤ 0
      · simp [applyOp, add_transaction, h1] at ht; exact hs t ht
      · by_cases h2 : pyStrip c = ""
        · simp [applyOp, add_transaction, h1, h2] at ht; exact hs t ht
        · by_cases h3 : ty ≠ "Income" ∧ ty ≠ "Expense"
          · simp [applyOp, add_transaction, h1, h2, h3] at ht; exact hs t ht
          · simp [applyOp, add_transaction, h1, h2, h3] at ht
            rcases ht with ht | ht
            · exact hs t ht
            · subst ht
              push_neg at h3
              refine ⟨lt_of_not_le h1, ?_, h2⟩
              by_cases hI : ty = "Income"
              · exact Or.inl hI
              · exact Or.inr (h3 hI)
  | removeById i =>
      intro t ht
      simp only [applyOp, remove_transaction] at ht
      cases hrem : removeFirstById s.transactions i with
      | none => rw [hrem] at ht; exact hs t ht
      | some l2 =>
          rw [hrem] at ht
          exact hs t (removeFirstById_subset s.transactions i l2 hrem t ht)
  | clear => intro t ht; simp [applyOp, clear_all_transactions] at ht
  | loadCsv input => exact absurd hop (by simp [Op.nonLoad])
  | loadJson input => exact absurd hop (by simp [Op.nonLoad])

theorem foldl_applyOp_preserves_invariant :
    ∀ (ops : List Op) (s : BudgetTracker),
      (∀ t ∈ s.transactions, TxInvariant t) → (∀ op ∈ ops, op.nonLoad) →
      ∀ t ∈ (ops.foldl applyOp s).transactions, TxInvariant t := by
  intro ops
  induction ops with
  | nil => intro s hs _; simpa using hs
  | cons op rest ih =>
      intro s hs hops
      simp only [List.foldl_cons]
      exact ih (applyOp s op)
        (applyOp_preserves_invariant s op hs (hops op (List.mem_cons_self op rest)))
        (fun o ho => hops o (List.mem_cons_of_mem op ho))

/-- C2 counterexample: the claim is FALSE for import operations.  A CSV row
that has all four required fields but carries amount `-5`, empty category
and kind `"Banana"` passes `load_from_csv`'s field-presence check and is
stored, so a reachable state (one import from the fresh tracker) contains a
record violating every clause of the invariant. -/
theorem c2_boundary_invariant_counterexample :
    Reachable (applyOp initState (Op.loadCsv (some [rowInvalidValues]))) ∧
    txInvalid ∈ (applyOp initState
      (Op.loadCsv (some [rowInvalidValues]))).transactions ∧
    ¬TxInvariant txInvalid :=
  ⟨Reachable.step _ _ Reachable.init, by decide, by decide⟩

/-- C2 (amended): for every state reachable by sequences of `add_transaction`,
`remove_transaction` and `clear_all_transactions` (no CSV/JSON imports),
every stored record satisfies amount > 0, kind ∈ {Income, Expense} and
category non-empty; the imports check only field presence, so they can store
violating records (see the counterexample). -/
theorem c2_stored_invariant_without_imports (ops : List Op)
    (h : ∀ op ∈ ops, op.nonLoad) :
    ∀ t ∈ (ops.foldl applyOp initState).transactions, TxInvariant t :=
  foldl_applyOp_preserves_invariant ops initState (by simp [initState]) h

/-- Witness for the amended C2 at a concrete one-addition history. -/
theorem c2_stored_invariant_without_imports_witness :
    TxInvariant ⟨5, "Food", "Expense", "USD", ⟨2024, 1, 1, 0, 0, 0⟩, 1⟩ :=
  c2_stored_invariant_without_imports
    [Op.add 5 "Food" "Expense" "USD" none ⟨2024, 1, 1, 0, 0, 0⟩]
    (by intro op hop
        simp only [List.mem_singleton] at hop
        subst hop
        exact trivial)
    _ (by decide)

/-- C3: for each budget scope with a configured limit, `spent ≥ limit` emits
exactly one critical "exceeded" alert (and no warning), otherwise
`spent / limit ≥ 0.80` emits exactly one warning alert, otherwise nothing;
a limit of 0 or an unset limit suppresses the scope.  Concretely, with a
monthly limit of 1000 and month-to-date spending 799.99 / 800.00 / 1000.00,
`get_budget_status` emits no alert / one warning / one critical alert. -/
theorem c3_budget_alert_thresholds (label : String) (spent l : ℚ) :
    scope_alerts label none spent = [] ∧
    scope_alerts label (some 0) spent = [] ∧
    (l ≠ 0 → spent ≥ l →
      scope_alerts label (some l) spent
        = [{ type := label ++ "_exceeded", severity := "critical" }]) ∧
    (l ≠ 0 → spent < l → spent / l ≥ 4/5 →
      scope_alerts label (some l) spent
        = [{ type := label ++ "_warning", severity := "warning" }]) ∧
    (l ≠ 0 → spent < l → spent / l < 4/5 →
      scope_alerts label (some l) spent = []) ∧
    (get_budget_status (trackerMonthly (79999/100)) nowRef).map
      BudgetStatus.alerts = some [] ∧
    (get_budget_status (trackerMonthly 800) nowRef).map BudgetStatus.alerts
      = some [{ type := "monthly_warning", severity := "warning" }] ∧
    (get_budget_status (trackerMonthly 1000) nowRef).map BudgetStatus.alerts
      = some [{ type := "monthly_exceeded", severity := "critical" }] := by
  have hpipe : ∀ x : ℚ, get_budget_status (trackerMonthly x) nowRef
      = some { monthly_spent := convert_to_usd x "USD", monthly_limit := some 1000,
               weekly_spent := convert_to_usd x "USD", weekly_limit := none,
               category_limits := [],
               alerts := scope_alerts "monthly" (some 1000)
                 (convert_to_usd x "USD") } := by
    intro x
    norm_num [get_budget_status, trackerMonthly, initState, get_expenses_in_period,
      get_category_expenses_current_month, category_alerts, scope_alerts,
      monthStart, weekStart, weekdayIdx, rataDie, daysBeforeMonth, daysInMonth,
      isLeap, prevDate, subDays, nowRef, DateTime.key]
  have hconv : ∀ x : ℚ, 0 ≤ x → convert_to_usd x "USD" = x := by
    intro x hx
    simp [convert_to_usd, exchange_rates, List.lookup, abs_of_nonneg hx]
  refine ⟨rfl, by simp [scope_alerts], ?_, ?_, ?_, ?_, ?_, ?_⟩
  · intro hl hs
    simp [scope_alerts, hl, hs]
  · intro hl hs hr
    have h100 : (spent / l) * 100 ≥ 80 := by linarith
    simp [scope_alerts, hl, not_le.mpr hs, h100]
  · intro hl hs hr
    have h100 : ¬(spent / l) * 100 ≥ 80 := by
      push_neg
      linarith
    simp [scope_alerts, hl, not_le.mpr hs, h100]
  · rw [hpipe, hconv (79999/100) (by norm_num)]
    norm_num [scope_alerts]
  · rw [hpipe, hconv 800 (by norm_num)]
    norm_num [scope_alerts]
    decide
  · rw [hpipe, hconv 1000 (by norm_num)]
    norm_num [scope_alerts]
    decide

/-- Witness for C3: the three threshold branches at limit 1000 and spending
800 / 1000 / 799.99. -/
theorem c3_budget_alert_thresholds_witness :
    scope_alerts "monthly" (some 1000) 800
      = [{ type := "monthly_warning", severity := "warning" }] ∧
    scope_alerts "monthly" (some 1000) 1000
      = [{ type := "monthly_exceeded", severity := "critical" }] ∧
    scope_alerts "monthly" (some 1000) (79999/100) = [] :=
  ⟨(c3_budget_alert_thresholds "monthly" 800 1000).2.2.2.1
      (by norm_num) (by norm_num) (by norm_num),
   (c3_budget_alert_thresholds "monthly" 1000 1000).2.2.1
      (by norm_num) (by norm_num),
   (c3_budget_alert_thresholds "monthly" (79999/100) 1000).2.2.2.2.1
      (by norm_num) (by norm_num) (by norm_num)⟩

theorem category_alerts_eq_none_iff (spent : String → ℚ) :
    ∀ limits : List (String × ℚ),
      category_alerts spent limits = none ↔
        ∃ p ∈ limits, p.2 = 0 ∧ spent p.1 > 0 := by
  intro limits
  induction limits with
  | nil => simp [category_alerts]
  | cons p rest ih =>
      obtain ⟨c, l⟩ := p
      by_cases hs : spent c > 0
      · by_cases hl : l = 0
        · subst hl
          simp [category_alerts, hs]
        · simp [category_alerts, hs, hl, Option.map_eq_none', ih]
      · simp [category_alerts, hs, ih]

/-- C4 counterexample: with a configured category limit of exactly 0 and
positive month-to-date spending in that category, the category loop computes
`(spent / limit) * 100` with `limit = 0` — `get_budget_status` raises
`ZeroDivisionError` (modelled as `none`), so a division by zero CAN occur. -/
theorem c4_division_by_zero_counterexample :
    get_budget_status trackerZeroLimitSpend nowRef = none := by
  norm_num [get_budget_status, trackerZeroLimitSpend, initState,
    get_expenses_in_period, get_category_expenses_current_month, category_alerts,
    monthStart, weekStart, weekdayIdx, rataDie, daysBeforeMonth, daysInMonth,
    isLeap, prevDate, subDays, nowRef, DateTime.key, convert_to_usd,
    exchange_rates, List.lookup]

/-- C4 (amended): the monthly/weekly scopes divide only when their limit is
truthy (nonzero), and a scope limit of 0 is suppressed outright, so those
scopes cannot divide by zero; the category loop, however, divides whenever
the category's month-to-date spending is positive REGARDLESS of the limit,
so `get_budget_status` raises (returns `none`) exactly when some configured
category limit is 0 while that category's spending is positive.  A category
limit of exactly 0 with spending of exactly 0 performs no division and
raises no alert. -/
theorem c4_division_guard_amended (s : BudgetTracker) (now : DateTime) :
    (get_budget_status s now = none ↔
      ∃ p ∈ s.budget_limits, p.2 = 0 ∧
        get_category_expenses_current_month s now p.1 > 0) ∧
    (∀ (label : String) (spent : ℚ), scope_alerts label (some 0) spent = []) ∧
    ((∀ p ∈ s.budget_limits, p.2 = 0 →
        ¬get_category_expenses_current_month s now p.1 > 0) →
      ∃ st, get_budget_status s now = some st) ∧
    (get_budget_status trackerZeroLimitNoSpend nowRef).map BudgetStatus.alerts
      = some [] := by
  have hmain : get_budget_status s now = none ↔
      ∃ p ∈ s.budget_limits, p.2 = 0 ∧
        get_category_expenses_current_month s now p.1 > 0 := by
    rw [get_budget_status, Option.map_eq_none']
    exact category_alerts_eq_none_iff _ _
  refine ⟨hmain, by intro label spent; simp [scope_alerts], ?_, ?_⟩
  · intro h
    rcases ho : get_budget_status s now with _ | st
    · rw [hmain] at ho
      obtain ⟨p, hp, h0, hgt⟩ := ho
      exact absurd hgt (h p hp h0)
    · exact ⟨st, rfl⟩
  · norm_num [get_budget_status, trackerZeroLimitNoSpend, initState,
      get_expenses_in_period, get_category_expenses_current_month,
      category_alerts, scope_alerts, monthStart, weekStart, weekdayIdx,
      rataDie, daysBeforeMonth, daysInMonth, isLeap, prevDate, subDays,
      nowRef, DateTime.key, convert_to_usd, exchange_rates, List.lookup]

/-- Witness for the amended C4: a tracker with no category limits never hits
the division, so evaluation succeeds. -/
theorem c4_division_guard_amended_witness :
    ∃ st, get_budget_status initState nowRef = some st :=
  (c4_division_guard_amended initState nowRef).2.2.1
    (by intro p hp; simp [initState] at hp)

/-- C5: `get_summary` converts every record's amount to the base currency,
sums Income-kind records and Expense-kind records separately, and returns
`net_balance = total_income - total_expenses`; for the ledger built by adding
Income 5000 "Salary" USD and Expense 1200 "Rent" USD it returns
5000 / 1200 / 3800. -/
theorem c5_get_summary_correct (s : BudgetTracker) :
    (get_summary s).total_income
      = ((s.transactions.filter fun t => t.type = "Income").map
          fun t => convert_to_usd t.amount t.currency).sum ∧
    (get_summary s).total_expenses
      = ((s.transactions.filter fun t => t.type = "Expense").map
          fun t => convert_to_usd t.amount t.currency).sum ∧
    (get_summary s).net_balance
      = (get_summary s).total_income - (get_summary s).total_expenses ∧
    get_summary trackerSummary
      = { total_income := 5000, total_expenses := 1200, net_balance := 3800 } := by
  refine ⟨?_, ?_, rfl, ?_⟩
  · simp [get_summary, foldl_summary_eq]
  · simp [get_summary, foldl_summary_eq]
  · have htx : trackerSummary.transactions
        = [⟨5000, "Salary", "Income", "USD", ⟨2024, 6, 10, 10, 0, 0⟩, 1⟩,
           ⟨1200, "Rent", "Expense", "USD", ⟨2024, 6, 10, 10, 0, 0⟩, 2⟩] := by
      decide
    have hc1 : convert_to_usd 5000 "USD" = 5000 := by
      simp [convert_to_usd, exchange_rates, List.lookup]
    have hc2 : convert_to_usd 1200 "USD" = 1200 := by
      simp [convert_to_usd, exchange_rates, List.lookup]
    norm_num [get_summary, htx, summaryStep, hc1, hc2, Summary.mk.injEq]
    split_ifs with h
    · exact absurd h (by decide)
    · norm_num

/-- C6: `convert_to_usd` returns `|amount| / rate` for a currency in the
rate table (negative inputs treated as positive via the magnitude) and
returns `amount` unchanged for an unknown currency; concretely,
`convert_to_usd 100 "EUR"` with rate 0.91 is `100 / 0.91 = 10000/91`, and
any amount in the unknown currency `"UNKNOWN"` passes through unchanged. -/
theorem c6_convert_to_usd_correct (amount : ℚ) (currency : String) (rate : ℚ) :
    (exchange_rates.lookup currency = some rate →
      convert_to_usd amount currency = |amount| / rate) ∧
    (exchange_rates.lookup currency = none →
      convert_to_usd amount currency = amount) ∧
    convert_to_usd 100 "EUR" = 10000 / 91 ∧
    convert_to_usd amount "UNKNOWN" = amount := by
  have hknown : ∀ (a r : ℚ) (c : String), exchange_rates.lookup c = some r →
      convert_to_usd a c = |a| / r := by
    intro a r c h
    simp [convert_to_usd, h]
  have hunknown : ∀ (a : ℚ) (c : String), exchange_rates.lookup c = none →
      convert_to_usd a c = a := by
    intro a c h
    simp [convert_to_usd, h]
  refine ⟨hknown amount rate currency, hunknown amount currency, ?_,
    hunknown amount "UNKNOWN" rfl⟩
  rw [hknown 100 (91 / 100) "EUR" rfl]
  norm_num

/-- Witness for C6: the known-currency branch applied at EUR (rate 0.91) and
the unknown-currency branch applied at a made-up code. -/
theorem c6_convert_to_usd_correct_witness :
    convert_to_usd (-100) "EUR" = |(-100 : ℚ)| / (91 / 100) ∧
    convert_to_usd 7 "XYZ" = 7 :=
  ⟨(c6_convert_to_usd_correct (-100) "EUR" (91 / 100)).1 rfl,
   (c6_convert_to_usd_correct 7 "XYZ" 0).2.1 rfl⟩

theorem loadRows_save_to_csv (ts : List Transaction) :
    ∀ acc : List Transaction,
      loadRows (ts.map fun t =>
        ({ date := some t.date, amount := some (some t.amount),
           currency := some t.currency, category := some t.category,
           type := some t.type,
           usd_value := some (round2 (convert_to_usd t.amount t.currency)) }
          : FileRow)) acc
      = some (acc ++ renumberFrom acc.length ts) := by
  induction ts with
  | nil => intro acc; simp [loadRows, renumberFrom]
  | cons t ts ih =>
      intro acc
      simp only [List.map_cons, loadRows, Option.getD_some]
      rw [ih]
      simp [renumberFrom, List.append_assoc]

theorem renumberFrom_tupleOf (ts : List Transaction) :
    ∀ k : Nat, (renumberFrom k ts).map tupleOf = ts.map tupleOf := by
  induction ts with
  | nil => intro k; simp [renumberFrom]
  | cons t ts ih => intro k; simp [renumberFrom, tupleOf, ih]

theorem renumberFrom_ids (ts : List Transaction) :
    ∀ k : Nat, (renumberFrom k ts).map Transaction.id
      = List.range' (k + 1) ts.length := by
  induction ts with
  | nil => intro k; simp [renumberFrom]
  | cons t ts ih =>
      intro k
      simp [renumberFrom, ih, List.range'_succ]

/-- C7: exporting any ledger to CSV and importing the produced file into any
tracker succeeds, REPLACES that tracker's transactions, and yields the same
sequence of (date, amount, currency, category, type) tuples with ids
renumbered 1..n in file order. -/
theorem c7_csv_round_trip (s s0 : BudgetTracker) :
    (load_from_csv s0 (some (save_to_csv s))).1 = true ∧
    (load_from_csv s0 (some (save_to_csv s))).2.transactions.map tupleOf
      = s.transactions.map tupleOf ∧
    (load_from_csv s0 (some (save_to_csv s))).2.transactions.map Transaction.id
      = List.range' 1 s.transactions.length ∧
    (load_from_csv s0 (some (save_to_csv s))).2
      = { s0 with transactions := renumberFrom 0 s.transactions } := by
  have h := loadRows_save_to_csv s.transactions []
  simp only [List.length_nil, List.nil_append] at h
  refine ⟨?_, ?_, ?_, ?_⟩ <;>
    simp [load_from_csv, save_to_csv, h, renumberFrom_tupleOf, renumberFrom_ids]

theorem nodup_not_mem_erase {l : List String} {a : String} (h : l.Nodup) :
    a ∉ l.erase a := by
  induction l with
  | nil => simp
  | cons x xs ih =>
      obtain ⟨hx, hxs⟩ := List.nodup_cons.mp h
      by_cases hxa : x = a
      · subst hxa
        simpa [List.erase_cons_head] using hx
      · have hne : ¬(x == a) = true := by simpa using hxa
        rw [List.erase_cons_tail hne]
        simp only [List.mem_cons]
        rintro (rfl | hmem)
        · exact hxa rfl
        · exact ih hxs hmem

/-- C8: `remove_category` returns `false` and changes neither category set
when the name is referenced by any transaction (exact, case-sensitive match)
or is absent from the requested kind's set; otherwise it returns `true`,
erases the name from that kind's set (the other set untouched), after which
`get_categories` for that kind no longer lists it (the sets are duplicate
free in every reachable registry state). -/
theorem c8_remove_category_correct (s : BudgetTracker) (name kind : String) :
    (is_category_in_use s name = true →
      remove_category s name kind = (false, s)) ∧
    (kind = "Income" → name ∉ s.income_categories →
      remove_category s name kind = (false, s)) ∧
    (kind = "Expense" → name ∉ s.expense_categories →
      remove_category s name kind = (false, s)) ∧
    (kind ≠ "Income" → kind ≠ "Expense" →
      remove_category s name kind = (false, s)) ∧
    (kind = "Income" → is_category_in_use s name = false →
      name ∈ s.income_categories → s.income_categories.Nodup →
      (remove_category s name kind).1 = true ∧
      (remove_category s name kind).2.income_categories
        = s.income_categories.erase name ∧
      (remove_category s name kind).2.expense_categories
        = s.expense_categories ∧
      name ∉ get_categories (remove_category s name kind).2 (some "Income")) ∧
    (kind = "Expense" → is_category_in_use s name = false →
      name ∈ s.expense_categories → s.expense_categories.Nodup →
      (remove_category s name kind).1 = true ∧
      (remove_category s name kind).2.expense_categories
        = s.expense_categories.erase name ∧
      (remove_category s name kind).2.income_categories
        = s.income_categories ∧
      name ∉ get_categories (remove_category s name kind).2 (some "Expense")) := by
  refine ⟨?_, ?_, ?_, ?_, ?_, ?_⟩
  · intro h
    simp [remove_category, h]
  · intro hk h
    by_cases hu : is_category_in_use s name
    · simp [remove_category, hu]
    · by_cases he : kind = "Expense" ∧ name ∈ s.expense_categories <;>
        simp [remove_category, hu, hk, h, he]
  · intro hk h
    by_cases hu : is_category_in_use s name
    · simp [remove_category, hu]
    · have hki : ¬(kind = "Income" ∧ name ∈ s.income_categories) := by
        subst hk; simp
      simp [remove_category, hu, hki, hk, h]
  · intro hkI hkE
    by_cases hu : is_category_in_use s name <;>
      simp [remove_category, hu, hkI, hkE]
  · intro hk hu hmem hnd
    subst hk
    have hres : remove_category s name "Income"
        = (true, { s with income_categories := s.income_categories.erase name }) := by
      simp [remove_category, hu, hmem]
    refine ⟨by simp [hres], by simp [hres], by simp [hres], ?_⟩
    simp [hres, get_categories]
    exact nodup_not_mem_erase hnd
  · intro hk hu hmem hnd
    subst hk
    have hki : ¬((("Expense" : String)) = "Income" ∧ name ∈ s.income_categories) := by
      simp
    have hres : remove_category s name "Expense"
        = (true, { s with expense_categories := s.expense_categories.erase name }) := by
      simp [remove_category, hu, hki, hmem]
    refine ⟨by simp [hres], by simp [hres], by simp [hres], ?_⟩
    simp [hres, get_categories]
    exact nodup_not_mem_erase hnd

/-- Witness for C8 on the fresh tracker: removing the in-use/absent cases and
a successful removal of the default income category "Salary". -/
theorem c8_remove_category_correct_witness :
    remove_category initState "Nonexistent" "Income" = (false, initState) ∧
    ((remove_category initState "Salary" "Income").1 = true ∧
      (remove_category initState "Salary" "Income").2.income_categories
        = initState.income_categories.erase "Salary" ∧
      (remove_category initState "Salary" "Income").2.expense_categories
        = initState.expense_categories ∧
      "Salary" ∉ get_categories (remove_category initState "Salary" "Income").2
        (some "Income")) :=
  ⟨(c8_remove_category_correct initState "Nonexistent" "Income").2.1 rfl
      (by decide),
   (c8_remove_category_correct initState "Salary" "Income").2.2.2.2.1 rfl
      (by decide) (by decide) (by decide)⟩

/-- C9 counterexample: the claim is FALSE for the per-category totals.  With
`now` = 2024-06-15 12:00 and a single Expense of 50 in "Food" dated
2025-06-10 (a LATER calendar year, after `now`), the source's category loop
— which only checks `transaction_date >= current_month_start` — counts it
(total 50), whereas the claimed window [month start, now] contains nothing. -/
theorem c9_category_window_counterexample :
    get_category_expenses_current_month trackerFutureYear nowRef "Food" = 50 ∧
    spec_category_window_expenses trackerFutureYear nowRef "Food" = 0 ∧
    get_category_expenses_current_month trackerFutureYear nowRef "Food"
      ≠ spec_category_window_expenses trackerFutureYear nowRef "Food" := by
  have h1 : get_category_expenses_current_month trackerFutureYear nowRef "Food"
      = 50 := by
    norm_num [get_category_expenses_current_month, trackerFutureYear, initState,
      monthStart, nowRef, DateTime.key, convert_to_usd, exchange_rates,
      List.lookup]
  have h2 : spec_category_window_expenses trackerFutureYear nowRef "Food"
      = 0 := by
    norm_num [spec_category_window_expenses, trackerFutureYear, initState,
      monthStart, nowRef, DateTime.key, List.filter]
  exact ⟨h1, h2, by rw [h1, h2]; norm_num⟩

/-- C9 (amended): `monthlySpent` (`_get_expenses_in_period` over the month
window) counts exactly the Expense records with
month start ≤ date ≤ now — a different-calendar-year same-month-number
record and a future-dated record are both excluded; the per-category totals
(`_get_category_expenses_current_month`) check only date ≥ month start, with
NO upper bound, so Expense records dated after `now` — including a later
calendar year with the same month number — ARE included there. -/
theorem c9_month_window_amended (s : BudgetTracker) (now : DateTime) :
    get_expenses_in_period s (monthStart now) now
      = spec_month_window_expenses s now ∧
    (∀ category : String,
      get_category_expenses_current_month s now category
        = ((s.transactions.filter fun t =>
              t.type = "Expense" ∧ (monthStart now).key ≤ t.date.key ∧
                t.category = category).map
            fun t => convert_to_usd t.amount t.currency).sum) ∧
    get_expenses_in_period trackerPastYear (monthStart nowRef) nowRef = 0 ∧
    get_category_expenses_current_month trackerPastYear nowRef "Food" = 0 ∧
    get_expenses_in_period trackerFutureYear (monthStart nowRef) nowRef = 0 := by
  refine ⟨?_, ?_, ?_, ?_, ?_⟩
  · simp [get_expenses_in_period, spec_month_window_expenses, foldl_expenses_eq]
  · intro category
    simp [get_category_expenses_current_month, foldl_category_eq]
  · norm_num [get_expenses_in_period, trackerPastYear, initState, monthStart,
      nowRef, DateTime.key]
  · norm_num [get_category_expenses_current_month, trackerPastYear, initState,
      monthStart, nowRef, DateTime.key]
  · norm_num [get_expenses_in_period, trackerFutureYear, initState, monthStart,
      nowRef, DateTime.key]

/-- C10: whenever a CSV or JSON load reports failure — missing/unreadable
file, unrecognized document shape, or a row whose `amount` cannot be
converted — the tracker is left exactly as it was (the whole in-memory
state, in particular the transaction sequence). -/
theorem c10_failed_load_preserves_state (s : BudgetTracker)
    (csvInput : Option (List FileRow)) (jsonInput : Option JsonData) :
    ((load_from_csv s csvInput).1 = false → (load_from_csv s csvInput).2 = s) ∧
    ((load_from_json s jsonInput).1 = false →
      (load_from_json s jsonInput).2 = s) := by
  constructor
  · intro h
    match csvInput with
    | none => rfl
    | some rows =>
        simp only [load_from_csv] at h ⊢
        match hrows : loadRows rows [] with
        | none => simp [hrows]
        | some ts => simp [hrows] at h
  · intro h
    match jsonInput with
    | none => rfl
    | some .other => rfl
    | some (.dict none) => rfl
    | some (.list rows) =>
        simp only [load_from_json] at h ⊢
        match hrows : loadRows rows [] with
        | none => simp [hrows]
        | some ts => simp [hrows] at h
    | some (.dict (some rows)) =>
        simp only [load_from_json] at h ⊢
        match hrows : loadRows rows [] with
        | none => simp [hrows]
        | some ts => simp [hrows] at h

/-- Witness for C10: a CSV file with an unparseable amount cell and a JSON
document of unrecognized shape both fail against the fresh tracker and leave
it untouched. -/
theorem c10_failed_load_preserves_state_witness :
    (load_from_csv initState (some [rowBadAmount])).2 = initState ∧
    (load_from_json initState (some JsonData.other)).2 = initState :=
  ⟨(c10_failed_load_preserves_state initState (some [rowBadAmount])
      (some JsonData.other)).1 (by decide),
   (c10_failed_load_preserves_state initState (some [rowBadAmount])
      (some JsonData.other)).2 (by decide)⟩
